import Mathlib

/-!
Shallow embedding of the TaxSaver rules engine (tax-loss-harvesting core).

Sources embedded here:
* the tax service (`TaxService`: `calculateHoldingTax`, `calculateTax`,
  `generateRecommendations`, `updateRecommendationStatus`);
* the transaction service (`TransactionService`: `executeRecommendation`,
  `reverseTransaction`);
* the carry-forward service (`CarryForwardService`: `getAvailableCarryForward`,
  `applyCarryForward`);
* the wash-sale service (`WashSaleService.checkWashSale`);
* the regime-comparison service (`TaxComparisonService`: `compareRegimes`,
  `calculateOldRegime`, `calculateNewRegime`, `calculateSlabTax`,
  `calculateCapitalGainsTax`, `calculateSurcharge`, `quickEstimate`).

Money and rates are modelled as rationals (the source uses JS numbers on
decimal inputs).  Calendar dates are modelled at day granularity as integers
(the source manipulates `Date` values day by day; all date arithmetic in the
embedded code paths is in whole days).  Database tables are modelled as lists
of rows; a SQL transaction that rolls back is modelled by returning the
pre-call state together with the error.
-/

namespace TaxSaver

/-- Asset categories of the simple (two-category) engine: `'stock' | 'crypto'`. -/
inductive AssetType where
  | stock
  | crypto
deriving DecidableEq, Repr

/-- Recommendation status: `'pending' | 'accepted' | 'rejected' | 'expired'`. -/
inductive RecStatus where
  | pending
  | accepted
  | rejected
  | expired
deriving DecidableEq, Repr

/-- Transaction type: `'buy' | 'sell'`. -/
inductive TxnType where
  | buy
  | sell
deriving DecidableEq, Repr

/-- A portfolio holding (interface `Holding` of the portfolio/tax services).
`profitLoss`, `profitLossPercentage` and `isShortTerm` are the computed
fields the tax service reads (`holding.profitLoss || 0`,
`holding.isShortTerm || false`); the `|| default` coalescing is reflected by
making the fields total here. -/
structure Holding where
  holdingId : Nat
  userId : Nat
  assetType : AssetType
  assetSymbol : String
  quantity : ℚ
  averageBuyPrice : ℚ
  currentPrice : ℚ
  purchaseDate : ℤ
  profitLoss : ℚ
  profitLossPercentage : ℚ
  isShortTerm : Bool
deriving DecidableEq, Repr

/-- A row of the `transactions` table. -/
structure Txn where
  transactionId : Nat
  userId : Nat
  holdingId : Option Nat
  assetType : AssetType
  assetSymbol : String
  transactionType : TxnType
  quantity : ℚ
  price : ℚ
  transactionDate : ℤ
  platform : String
  notes : String
deriving DecidableEq, Repr

/-- A row of the `tax_recommendations` table. -/
structure Recommendation where
  recommendationId : Nat
  userId : Nat
  holdingId : Nat
  assetSymbol : String
  recommendationType : String
  currentPrice : ℚ
  purchasePrice : ℚ
  quantity : ℚ
  potentialLoss : ℚ
  taxSavings : ℚ
  priorityScore : ℤ
  deadline : ℤ
  notes : String
  status : RecStatus
deriving DecidableEq, Repr

/-- Tax configuration (`TaxConfig`), rates in percent as in the source. -/
structure TaxConfig where
  shortTermEquityRate : ℚ
  longTermEquityRate : ℚ
  longTermEquityExemption : ℚ
  cryptoShortTermRate : ℚ
  cryptoLongTermRate : ℚ
  surchargeThreshold : ℚ
  surchargeRate : ℚ
  cessRate : ℚ
deriving DecidableEq, Repr

/-- The default configuration synthesized by `getTaxConfig` on a read miss. -/
def defaultTaxConfig : TaxConfig :=
  { shortTermEquityRate := 15
    longTermEquityRate := 10
    longTermEquityExemption := 100000
    cryptoShortTermRate := 30
    cryptoLongTermRate := 20
    surchargeThreshold := 5000000
    surchargeRate := 10
    cessRate := 4 }

/-- Per-holding tax calculation record (`TaxCalculation`). -/
structure TaxCalculation where
  holding : Holding
  gainLoss : ℚ
  isShortTerm : Bool
  taxRate : ℚ
  taxableAmount : ℚ
  taxLiability : ℚ
  assetType : AssetType
deriving DecidableEq, Repr

/-- `TaxService.calculateHoldingTax`: rate by (category × term); only gains
are taxed; the long-term equity exemption is subtracted from this single
holding's gain. -/
def calculateHoldingTax (holding : Holding) (config : TaxConfig) : TaxCalculation :=
  let gainLoss := holding.profitLoss
  let isShortTerm := holding.isShortTerm
  let assetType := holding.assetType
  if gainLoss > 0 then
    if assetType = AssetType.stock then
      if isShortTerm then
        { holding := holding, gainLoss := gainLoss, isShortTerm := isShortTerm
          taxRate := config.shortTermEquityRate, taxableAmount := gainLoss
          taxLiability := gainLoss * config.shortTermEquityRate / 100
          assetType := assetType }
      else
        let taxableAmount := max 0 (gainLoss - config.longTermEquityExemption)
        { holding := holding, gainLoss := gainLoss, isShortTerm := isShortTerm
          taxRate := config.longTermEquityRate, taxableAmount := taxableAmount
          taxLiability := taxableAmount * config.longTermEquityRate / 100
          assetType := assetType }
    else
      let taxRate := if isShortTerm then config.cryptoShortTermRate else config.cryptoLongTermRate
      { holding := holding, gainLoss := gainLoss, isShortTerm := isShortTerm
        taxRate := taxRate, taxableAmount := gainLoss
        taxLiability := gainLoss * taxRate / 100
        assetType := assetType }
  else
    { holding := holding, gainLoss := gainLoss, isShortTerm := isShortTerm
      taxRate := 0, taxableAmount := gainLoss, taxLiability := 0
      assetType := assetType }

/-- Fiscal-year tax summary (`TaxSummary`). -/
structure TaxSummary where
  totalShortTermGains : ℚ
  totalLongTermGains : ℚ
  totalShortTermLosses : ℚ
  totalLongTermLosses : ℚ
  netShortTermGains : ℚ
  netLongTermGains : ℚ
  totalTaxLiability : ℚ
  totalTaxWithSurchargeAndCess : ℚ
  calculations : List TaxCalculation
deriving DecidableEq, Repr

/-- The accumulation loop of `TaxService.calculateTax`: gains and losses are
summed per term bucket (`gainLoss > 0` goes to gains, otherwise its absolute
value goes to losses). -/
def accumulateBuckets (calcs : List TaxCalculation) : ℚ × ℚ × ℚ × ℚ :=
  calcs.foldl
    (fun acc c =>
      let (stg, ltg, stl, ltl) := acc
      if c.isShortTerm then
        if c.gainLoss > 0 then (stg + c.gainLoss, ltg, stl, ltl)
        else (stg, ltg, stl + |c.gainLoss|, ltl)
      else
        if c.gainLoss > 0 then (stg, ltg + c.gainLoss, stl, ltl)
        else (stg, ltg, stl, ltl + |c.gainLoss|))
    (0, 0, 0, 0)

/-- `TaxService.calculateTax` on the user's holdings and the year's config:
per-holding calculations, bucket totals, same-bucket net clip, total
liability, surcharge over threshold, then cess. -/
def calculateTax (holdings : List Holding) (taxConfig : TaxConfig) : TaxSummary :=
  let calculations := holdings.map (fun h => calculateHoldingTax h taxConfig)
  let (totalShortTermGains, totalLongTermGains, totalShortTermLosses, totalLongTermLosses) :=
    accumulateBuckets calculations
  let netShortTermGains := max 0 (totalShortTermGains - totalShortTermLosses)
  let netLongTermGains := max 0 (totalLongTermGains - totalLongTermLosses)
  let totalTaxLiability := (calculations.map TaxCalculation.taxLiability).sum
  let taxWithSurcharge :=
    if totalShortTermGains + totalLongTermGains > taxConfig.surchargeThreshold then
      totalTaxLiability + totalTaxLiability * (taxConfig.surchargeRate / 100)
    else totalTaxLiability
  let totalTaxWithSurchargeAndCess :=
    taxWithSurcharge + taxWithSurcharge * (taxConfig.cessRate / 100)
  { totalShortTermGains := totalShortTermGains
    totalLongTermGains := totalLongTermGains
    totalShortTermLosses := totalShortTermLosses
    totalLongTermLosses := totalLongTermLosses
    netShortTermGains := netShortTermGains
    netLongTermGains := netLongTermGains
    totalTaxLiability := totalTaxLiability
    totalTaxWithSurchargeAndCess := totalTaxWithSurchargeAndCess
    calculations := calculations }


/-- Stable insertion of a recommendation into a list already sorted by
descending `priorityScore`: the element goes before the first strictly
smaller score, after equal scores (the stable JS
`sort((a, b) => b.priorityScore - a.priorityScore)`). -/
def insertByPriority (r : Recommendation) : List Recommendation → List Recommendation
  | [] => [r]
  | x :: xs => if x.priorityScore < r.priorityScore then r :: x :: xs else x :: insertByPriority r xs

/-- Stable sort by descending `priorityScore`. -/
def sortByPriority : List Recommendation → List Recommendation
  | [] => []
  | x :: xs => insertByPriority x (sortByPriority xs)

/-- The recommendation built by `TaxService.generateRecommendations` for one
loss-making calculation `c`, scored against the summary totals. -/
def buildRecommendation (userId : Nat) (fyStartYear : ℤ) (summary : TaxSummary)
    (c : TaxCalculation) : Recommendation :=
  let holding := c.holding
  let potentialLoss := |c.gainLoss|
  let taxSavings :=
    if c.isShortTerm = true ∧ summary.netShortTermGains > 0 then
      min potentialLoss summary.netShortTermGains * c.taxRate / 100
    else if c.isShortTerm = false ∧ summary.netLongTermGains > 0 then
      min potentialLoss summary.netLongTermGains * c.taxRate / 100
    else 0
  let lossPercentage := |holding.profitLossPercentage|
  let priorityScore := min 10 (⌊lossPercentage / 5⌋ + if taxSavings > 0 then 3 else 0)
  { recommendationId := 0
    userId := userId
    holdingId := holding.holdingId
    assetSymbol := holding.assetSymbol
    recommendationType := "harvest_loss"
    currentPrice := holding.currentPrice
    purchasePrice := holding.averageBuyPrice
    quantity := holding.quantity
    potentialLoss := potentialLoss
    taxSavings := taxSavings
    priorityScore := priorityScore
    deadline := fyStartYear + 1
    notes := "harvest loss"
    status := RecStatus.pending }

/-- `TaxService.generateRecommendations`: one pending recommendation per
loss-making holding, scored against the fixed summary, sorted by descending
priority.  The `deadline` field abstracts March 31 of `fyStartYear + 1` by
that year number; the free-text `notes` rendering is not modelled. -/
def generateRecommendations (userId : Nat) (holdings : List Holding)
    (taxConfig : TaxConfig) (fyStartYear : ℤ) : List Recommendation :=
  let taxSummary := calculateTax holdings taxConfig
  let lossCalcs := taxSummary.calculations.filter (fun c => c.gainLoss < 0)
  sortByPriority (lossCalcs.map (buildRecommendation userId fyStartYear taxSummary))

/-- The mutable store the executor works on: the `holdings`, `transactions`
and `tax_recommendations` tables. -/
structure EngineState where
  holdings : List Holding
  transactions : List Txn
  recommendations : List Recommendation
deriving DecidableEq, Repr

/-- `TaxService.updateRecommendationStatus`: a single
`UPDATE ... WHERE recommendation_id = $2 AND user_id = $3`; a 404 error when
no row matches.  Returns the error (if any) and the post-call state. -/
def updateRecommendationStatus (s : EngineState) (recommendationId userId : Nat)
    (status : RecStatus) : Option String × EngineState :=
  let matching := s.recommendations.filter
    (fun r => r.recommendationId = recommendationId ∧ r.userId = userId)
  if matching.isEmpty then
    (some "Recommendation not found", s)
  else
    (none,
     { s with recommendations := s.recommendations.map (fun r =>
         if r.recommendationId = recommendationId ∧ r.userId = userId then
           { r with status := status }
         else r) })

/-- `TransactionService.executeRecommendation`: inside one SQL transaction,
(a) read the recommendation requiring `status = pending`; (b) read the
holding; (c) insert a sell transaction; (d) decrement the holding quantity,
deleting the holding when the result is ≤ 0; (e) mark the recommendation
accepted.  A thrown error rolls the whole unit back, so the pre-call state is
returned with the error. -/
def executeRecommendation (s : EngineState) (userId recommendationId : Nat)
    (now : ℤ) : Option String × EngineState :=
  let recRows := s.recommendations.filter (fun r =>
    r.recommendationId = recommendationId ∧ r.userId = userId ∧ r.status = RecStatus.pending)
  match recRows with
  | [] => (some "Recommendation not found or already executed", s)
  | rec :: _ =>
    let holdingRows := s.holdings.filter (fun h =>
      h.holdingId = rec.holdingId ∧ h.userId = userId)
    match holdingRows with
    | [] => (some "Holding not found", s)
    | holding :: _ =>
      let sellTxn : Txn :=
        { transactionId := s.transactions.length
          userId := userId
          holdingId := some holding.holdingId
          assetType := holding.assetType
          assetSymbol := holding.assetSymbol
          transactionType := TxnType.sell
          quantity := rec.quantity
          price := rec.currentPrice
          transactionDate := now
          platform := "tlh_execution"
          notes := "Tax loss harvesting" }
      let s1 := { s with transactions := s.transactions ++ [sellTxn] }
      let newQuantity := holding.quantity - rec.quantity
      let s2 :=
        if newQuantity ≤ 0 then
          { s1 with holdings := s1.holdings.filter (fun h => ¬ h.holdingId = holding.holdingId) }
        else
          { s1 with holdings := s1.holdings.map (fun h =>
              if h.holdingId = holding.holdingId then { h with quantity := newQuantity } else h) }
      let s3 := { s2 with recommendations := s2.recommendations.map (fun r =>
          if r.recommendationId = recommendationId then { r with status := RecStatus.accepted }
          else r) }
      (none, s3)

/-- `TransactionService.reverseTransaction`: read the transaction; for a
reversed sell, add the quantity back to the holding (recreating the holding
row when it no longer exists); for a reversed buy, subtract the quantity from
the holding; finally append `" [REVERSED]"` to the transaction's notes. -/
def reverseTransaction (s : EngineState) (userId transactionId : Nat) :
    Option String × EngineState :=
  let txnRows := s.transactions.filter (fun t =>
    t.transactionId = transactionId ∧ t.userId = userId)
  match txnRows with
  | [] => (some "Transaction not found", s)
  | txn :: _ =>
    let s1 : EngineState :=
      match txn.transactionType, txn.holdingId with
      | TxnType.sell, some hid =>
        if s.holdings.any (fun h => h.holdingId = hid) then
          { s with holdings := s.holdings.map (fun h =>
              if h.holdingId = hid then { h with quantity := h.quantity + txn.quantity } else h) }
        else
          { s with holdings := s.holdings ++
              [{ holdingId := hid
                 userId := userId
                 assetType := txn.assetType
                 assetSymbol := txn.assetSymbol
                 quantity := txn.quantity
                 averageBuyPrice := txn.price
                 currentPrice := txn.price
                 purchaseDate := txn.transactionDate
                 profitLoss := 0
                 profitLossPercentage := 0
                 isShortTerm := true }] }
      | TxnType.buy, some hid =>
        { s with holdings := s.holdings.map (fun h =>
            if h.holdingId = hid then { h with quantity := h.quantity - txn.quantity } else h) }
      | _, _ => s
    let s2 := { s1 with transactions := s1.transactions.map (fun t =>
        if t.transactionId = transactionId then { t with notes := t.notes ++ " [REVERSED]" } else t) }
    (none, s2)


/-! ### Carry-forward ledger (`CarryForwardService`) -/

/-- A `tax_reports` row of `report_type = 'carry_forward'`: keyed by user and
fiscal year (fiscal years are represented by their April-1 start year, so the
string key `"YYYY-YY"` collapses to `YYYY` and the source's lexicographic
`financial_year <= $2` is the numeric `≤`), with the stored loss columns and
the `report_data` payload fields. -/
structure CarryForwardRow where
  userId : Nat
  financialYear : ℤ
  stLoss : ℚ
  ltLoss : ℚ
  sourceYear : ℤ
  expiresIn : ℤ
deriving DecidableEq, Repr

/-- `CarryForwardService.calculateCarryForward`, storage part: from a year's
gross gains and losses, the net losses `max 0 (loss − gain)` per bucket; when
either is positive a row keyed to the **next** fiscal year is upserted, with
`sourceYear` the loss year and `expiresIn = 8`. -/
def calculateCarryForwardRow (userId : Nat) (financialYear : ℤ)
    (stGain ltGain stLoss ltLoss : ℚ) : Option CarryForwardRow :=
  let netSTLoss := max 0 (stLoss - stGain)
  let netLTLoss := max 0 (ltLoss - ltGain)
  if netSTLoss > 0 ∨ netLTLoss > 0 then
    some { userId := userId
           financialYear := financialYear + 1
           stLoss := netSTLoss
           ltLoss := netLTLoss
           sourceYear := financialYear
           expiresIn := 8 }
  else none

/-- Result of `getAvailableCarryForward`. -/
structure CarryForwardAvailable where
  totalSTCarryForward : ℚ
  totalLTCarryForward : ℚ
  details : List CarryForwardRow
  count : Nat
deriving DecidableEq, Repr

/-- `CarryForwardService.getAvailableCarryForward`: select every
carry-forward row of the user with `financial_year ≤` the target year and sum
the stored short- and long-term losses.  (The source orders the rows by year
descending before summing; the totals do not depend on the order.) -/
def getAvailableCarryForward (rows : List CarryForwardRow) (userId : Nat)
    (financialYear : ℤ) : CarryForwardAvailable :=
  let carryForwards := rows.filter (fun r =>
    r.userId = userId ∧ r.financialYear ≤ financialYear)
  { totalSTCarryForward := (carryForwards.map CarryForwardRow.stLoss).sum
    totalLTCarryForward := (carryForwards.map CarryForwardRow.ltLoss).sum
    details := carryForwards
    count := carryForwards.length }

/-- Result of `applyCarryForward`. -/
structure ApplyCarryForwardResult where
  originalSTGain : ℚ
  originalLTGain : ℚ
  adjustedSTGain : ℚ
  adjustedLTGain : ℚ
  stLossUsed : ℚ
  ltLossUsed : ℚ
  totalLossUsed : ℚ
  taxSaved : ℚ
deriving DecidableEq, Repr

/-- `CarryForwardService.applyCarryForward`: short-term carry-forward first
offsets the short-term gain, its remainder then offsets the long-term gain;
long-term carry-forward offsets the remaining long-term gain only;
`taxSaved = stLossUsed · 0.15 + ltLossUsed · 0.10`. -/
def applyCarryForward (rows : List CarryForwardRow) (userId : Nat)
    (financialYear : ℤ) (currentSTGain currentLTGain : ℚ) : ApplyCarryForwardResult :=
  let carryForward := getAvailableCarryForward rows userId financialYear
  let step1 : ℚ × ℚ × ℚ :=
    if carryForward.totalSTCarryForward > 0 then
      let stOffset := min currentSTGain carryForward.totalSTCarryForward
      let remainingSTGain := currentSTGain - stOffset
      let stLossUsed := stOffset
      let remainingSTLoss := carryForward.totalSTCarryForward - stLossUsed
      if remainingSTLoss > 0 ∧ currentLTGain > 0 then
        let ltOffset := min currentLTGain remainingSTLoss
        (remainingSTGain, currentLTGain - ltOffset, stLossUsed + ltOffset)
      else
        (remainingSTGain, currentLTGain, stLossUsed)
    else
      (currentSTGain, currentLTGain, 0)
  let remainingSTGain := step1.1
  let stLossUsed := step1.2.2
  let step2 : ℚ × ℚ :=
    if carryForward.totalLTCarryForward > 0 ∧ step1.2.1 > 0 then
      let ltOffset := min step1.2.1 carryForward.totalLTCarryForward
      (step1.2.1 - ltOffset, ltOffset)
    else
      (step1.2.1, 0)
  let taxSaved := stLossUsed * (15 / 100) + step2.2 * (10 / 100)
  { originalSTGain := currentSTGain
    originalLTGain := currentLTGain
    adjustedSTGain := remainingSTGain
    adjustedLTGain := step2.1
    stLossUsed := stLossUsed
    ltLossUsed := step2.2
    totalLossUsed := stLossUsed + step2.2
    taxSaved := taxSaved }

/-! ### Wash-sale guard (`WashSaleService`) -/

/-- Result of `checkWashSale` (`WashSaleCheck`). -/
structure WashSaleCheck where
  isWashSale : Bool
  recentSellDate : Option ℤ
  canBuyBackAfter : Option ℤ
  daysRemaining : ℤ
  sellPrice : Option ℚ
deriving DecidableEq, Repr

/-- The `ORDER BY transaction_date DESC` / `rows[0]` idiom: an element with
the latest transaction date (the first such element on ties, which the SQL
leaves unspecified). -/
def pickLatest (l : List Txn) : Option Txn :=
  l.foldl
    (fun acc t =>
      match acc with
      | none => some t
      | some best => if best.transactionDate < t.transactionDate then some t else acc)
    none

/-- `WashSaleService.checkWashSale` (forward check): look back 30 days from
the proposed buy date for a sell of the symbol; if one is found,
`daysRemaining = (sellDate + 30) − buyDate` (the returned field clipped at 0)
and `isWashSale = daysRemaining > 0`. -/
def checkWashSale (txns : List Txn) (userId : Nat) (assetSymbol : String)
    (buyDate : ℤ) : WashSaleCheck :=
  let thirtyDaysBefore := buyDate - 30
  let recentSells := txns.filter (fun t =>
    t.userId = userId ∧ t.assetSymbol = assetSymbol ∧
    t.transactionType = TxnType.sell ∧
    thirtyDaysBefore ≤ t.transactionDate ∧ t.transactionDate ≤ buyDate)
  match pickLatest recentSells with
  | none =>
    { isWashSale := false, recentSellDate := none, canBuyBackAfter := none
      daysRemaining := 0, sellPrice := none }
  | some mostRecentSell =>
    let sellDate := mostRecentSell.transactionDate
    let canBuyBackAfter := sellDate + 30
    let daysRemaining := canBuyBackAfter - buyDate
    { isWashSale := daysRemaining > 0
      recentSellDate := some sellDate
      canBuyBackAfter := some canBuyBackAfter
      daysRemaining := max 0 daysRemaining
      sellPrice := some mostRecentSell.price }

/-! ### Regime comparator (`TaxComparisonService`) -/

/-- One progressive slab; `max = none` stands for the source's `Infinity`. -/
structure Slab where
  min : ℚ
  max : Option ℚ
  rate : ℚ
deriving DecidableEq, Repr

/-- `Math.min(income, slab.max)` with `slab.max` possibly `Infinity`. -/
def capAt (income : ℚ) (cap : Option ℚ) : ℚ :=
  match cap with
  | none => income
  | some m => min income m

def OLD_REGIME_SLABS : List Slab :=
  [ { min := 0, max := some 250000, rate := 0 }
  , { min := 250000, max := some 500000, rate := 5 / 100 }
  , { min := 500000, max := some 1000000, rate := 20 / 100 }
  , { min := 1000000, max := none, rate := 30 / 100 } ]

def NEW_REGIME_SLABS : List Slab :=
  [ { min := 0, max := some 300000, rate := 0 }
  , { min := 300000, max := some 600000, rate := 5 / 100 }
  , { min := 600000, max := some 900000, rate := 10 / 100 }
  , { min := 900000, max := some 1200000, rate := 15 / 100 }
  , { min := 1200000, max := some 1500000, rate := 20 / 100 }
  , { min := 1500000, max := none, rate := 30 / 100 } ]

/-- `TaxComparisonService.calculateSlabTax`: for every slab whose floor the
income exceeds, tax the part of the income inside the slab at the slab's
rate. -/
def calculateSlabTax (income : ℚ) (slabs : List Slab) : ℚ :=
  slabs.foldl
    (fun tax slab =>
      if income > slab.min then tax + (capAt income slab.max - slab.min) * slab.rate
      else tax)
    0

/-- Capital-gains input of the regime comparator. -/
structure CapitalGainsInput where
  shortTermEquity : ℚ
  longTermEquity : ℚ
  shortTermCrypto : ℚ
  longTermCrypto : ℚ
deriving DecidableEq, Repr

/-- Deduction input of the regime comparator. -/
structure DeductionsInput where
  section80C : ℚ
  section80D : ℚ
  homeLoanInterest : ℚ
  nps : ℚ
  other : ℚ
deriving DecidableEq, Repr

/-- Input of `compareRegimes` (`TaxRegimeInput`). -/
structure TaxRegimeInput where
  totalIncome : ℚ
  deductions : DeductionsInput
  capitalGains : CapitalGainsInput
deriving DecidableEq, Repr

/-- `calculateCapitalGainsTax`: 20% short-term equity; 12.5% long-term equity
after one aggregate 100,000 exemption; 30% crypto either term. -/
def calculateCapitalGainsTax (gains : CapitalGainsInput) : ℚ :=
  gains.shortTermEquity * (20 / 100)
    + max 0 (gains.longTermEquity - 100000) * (125 / 1000)
    + (gains.shortTermCrypto + gains.longTermCrypto) * (30 / 100)

/-- `getTotalCapitalGains`. -/
def getTotalCapitalGains (gains : CapitalGainsInput) : ℚ :=
  gains.shortTermEquity + gains.longTermEquity +
    gains.shortTermCrypto + gains.longTermCrypto

/-- `calculateSurcharge`: tiered surcharge on the income tax, selected by
total income including capital gains. -/
def calculateSurcharge (tax totalIncome : ℚ) : ℚ :=
  if totalIncome ≤ 5000000 then 0
  else if totalIncome ≤ 10000000 then tax * (10 / 100)
  else if totalIncome ≤ 20000000 then tax * (15 / 100)
  else if totalIncome ≤ 50000000 then tax * (25 / 100)
  else tax * (37 / 100)

/-- Per-regime output (`RegimeCalculation`); the `effectiveRate` percentage
is carried as in the source (rational division; the inputs of interest have a
positive denominator). -/
structure RegimeCalculation where
  incomeTax : ℚ
  surcharge : ℚ
  cess : ℚ
  capitalGainsTax : ℚ
  totalTax : ℚ
  deductionsUsed : ℚ
deriving DecidableEq, Repr

/-- `calculateOldRegime`: deductions summed and capped at 350,000, slab tax
on income minus deductions, surcharge, 4% cess on income tax plus surcharge,
capital-gains tax added after cess. -/
def calculateOldRegime (input : TaxRegimeInput) : RegimeCalculation :=
  let totalDeductions :=
    min (input.deductions.section80C + input.deductions.section80D +
         input.deductions.homeLoanInterest + input.deductions.nps +
         input.deductions.other) 350000
  let taxableIncome := max 0 (input.totalIncome - totalDeductions)
  let incomeTax := calculateSlabTax taxableIncome OLD_REGIME_SLABS
  let capitalGainsTax := calculateCapitalGainsTax input.capitalGains
  let totalIncomeWithGains := input.totalIncome + getTotalCapitalGains input.capitalGains
  let surcharge := calculateSurcharge incomeTax totalIncomeWithGains
  let cess := (incomeTax + surcharge) * (4 / 100)
  { incomeTax := incomeTax
    surcharge := surcharge
    cess := cess
    capitalGainsTax := capitalGainsTax
    totalTax := incomeTax + surcharge + cess + capitalGainsTax
    deductionsUsed := totalDeductions }

/-- `calculateNewRegime`: slab tax on gross income, no deductions. -/
def calculateNewRegime (input : TaxRegimeInput) : RegimeCalculation :=
  let taxableIncome := input.totalIncome
  let incomeTax := calculateSlabTax taxableIncome NEW_REGIME_SLABS
  let capitalGainsTax := calculateCapitalGainsTax input.capitalGains
  let totalIncomeWithGains := input.totalIncome + getTotalCapitalGains input.capitalGains
  let surcharge := calculateSurcharge incomeTax totalIncomeWithGains
  let cess := (incomeTax + surcharge) * (4 / 100)
  { incomeTax := incomeTax
    surcharge := surcharge
    cess := cess
    capitalGainsTax := capitalGainsTax
    totalTax := incomeTax + surcharge + cess + capitalGainsTax
    deductionsUsed := 0 }

/-- The regime the comparator recommends. -/
inductive RegimeChoice where
  | OLD
  | NEW
deriving DecidableEq, Repr

/-- Output of `compareRegimes` (`TaxComparison`). -/
structure TaxComparison where
  oldRegime : RegimeCalculation
  newRegime : RegimeCalculation
  recommendation : RegimeChoice
  savings : ℚ
deriving DecidableEq, Repr

/-- `TaxComparisonService.compareRegimes`: recommendation is `OLD` exactly
when the old regime's total tax is strictly smaller. -/
def compareRegimes (input : TaxRegimeInput) : TaxComparison :=
  let oldRegime := calculateOldRegime input
  let newRegime := calculateNewRegime input
  let savings := oldRegime.totalTax - newRegime.totalTax
  { oldRegime := oldRegime
    newRegime := newRegime
    recommendation :=
      if oldRegime.totalTax < newRegime.totalTax then RegimeChoice.OLD else RegimeChoice.NEW
    savings := |savings| }

/-- The input `quickEstimate` builds: the whole deduction amount under 80C,
zero capital gains. -/
def quickEstimateInput (totalIncome deductions : ℚ) : TaxRegimeInput :=
  { totalIncome := totalIncome
    deductions :=
      { section80C := deductions, section80D := 0, homeLoanInterest := 0
        nps := 0, other := 0 }
    capitalGains :=
      { shortTermEquity := 0, longTermEquity := 0
        shortTermCrypto := 0, longTermCrypto := 0 } }

/-- `TaxComparisonService.quickEstimate`: the two regime totals and the
recommendation for income and a lump deduction, with zero capital gains. -/
def quickEstimate (totalIncome deductions : ℚ) : ℚ × ℚ × RegimeChoice :=
  let comparison := compareRegimes (quickEstimateInput totalIncome deductions)
  (comparison.oldRegime.totalTax, comparison.newRegime.totalTax, comparison.recommendation)


/-! ### Concrete fixtures used by the claim theorems and witnesses -/

/-- A sell of symbol `SYM` on day 0 (wash-sale scenarios). -/
def sellSymTxn : Txn where
  transactionId := 1
  userId := 1
  holdingId := none
  assetType := AssetType.stock
  assetSymbol := "SYM"
  transactionType := TxnType.sell
  quantity := 10
  price := 100
  transactionDate := 0
  platform := "manual"
  notes := ""

/-- The carry-forward record produced by closing fiscal year 2009-10 with net
losses 1000 (short-term) and 500 (long-term): stored under the next year
2010-11 with `sourceYear = 2009` and `expiresIn = 8`. -/
def expiredCarryRow : CarryForwardRow where
  userId := 1
  financialYear := 2010
  stLoss := 1000
  ltLoss := 500
  sourceYear := 2009
  expiresIn := 8

/-- C4: a carry-forward record sourced from fiscal year 2009-10 is more than
8 years old when the year 2020-21 is computed, yet `getAvailableCarryForward`
still counts its short- and long-term losses in the returned totals: the
8-year expiry is recorded (`expiresIn = 8`) but never enforced by the query,
which filters only on user and `financial_year ≤` target. -/
theorem getAvailableCarryForward_counts_expired :
    calculateCarryForwardRow 1 2009 0 0 1000 500 = some expiredCarryRow ∧
    (2020 : ℤ) - expiredCarryRow.sourceYear ≥ 8 ∧
    (getAvailableCarryForward [expiredCarryRow] 1 2020).totalSTCarryForward = 1000 ∧
    (getAvailableCarryForward [expiredCarryRow] 1 2020).totalLTCarryForward = 500 := by
  refine ⟨?_, by norm_num [expiredCarryRow], ?_, ?_⟩ <;>
    norm_num [calculateCarryForwardRow, getAvailableCarryForward, expiredCarryRow]

/-- C7 (counterexample): on income 1,000,000 with deductions totalling
175,000 and zero capital gains, the comparator's old-regime total tax is NOT
strictly less than the new-regime total and the recommendation is not
`"OLD"`. -/
theorem compareRegimes_example_counterexample :
    ¬ ((compareRegimes (quickEstimateInput 1000000 175000)).oldRegime.totalTax <
        (compareRegimes (quickEstimateInput 1000000 175000)).newRegime.totalTax) ∧
    (compareRegimes (quickEstimateInput 1000000 175000)).recommendation ≠ RegimeChoice.OLD := by
  constructor
  · norm_num [compareRegimes, quickEstimateInput, calculateOldRegime, calculateNewRegime,
      calculateSlabTax, OLD_REGIME_SLABS, NEW_REGIME_SLABS, capAt, calculateCapitalGainsTax,
      getTotalCapitalGains, calculateSurcharge]
  · norm_num [compareRegimes, quickEstimateInput, calculateOldRegime, calculateNewRegime,
      calculateSlabTax, OLD_REGIME_SLABS, NEW_REGIME_SLABS, capAt, calculateCapitalGainsTax,
      getTotalCapitalGains, calculateSurcharge]
    decide

/-- C7 (amended): on income 1,000,000 with deductions totalling 175,000 and
zero capital gains, `compareRegimes` returns an old-regime total tax of
80,600, a new-regime total tax of 62,400 — so the old-regime tax is strictly
GREATER than the new-regime tax — and recommendation `"NEW"`. -/
theorem compareRegimes_example_amended :
    (compareRegimes (quickEstimateInput 1000000 175000)).oldRegime.totalTax = 80600 ∧
    (compareRegimes (quickEstimateInput 1000000 175000)).newRegime.totalTax = 62400 ∧
    (compareRegimes (quickEstimateInput 1000000 175000)).newRegime.totalTax <
      (compareRegimes (quickEstimateInput 1000000 175000)).oldRegime.totalTax ∧
    (compareRegimes (quickEstimateInput 1000000 175000)).recommendation = RegimeChoice.NEW := by
  norm_num [compareRegimes, quickEstimateInput, calculateOldRegime, calculateNewRegime,
    calculateSlabTax, OLD_REGIME_SLABS, NEW_REGIME_SLABS, capAt, calculateCapitalGainsTax,
    getTotalCapitalGains, calculateSurcharge]

/-- C8: for a user who sold `SYM` on day 0 and has no other `SYM`
transactions, the forward wash-sale check with a proposed buy on day 15
returns `isWashSale = true` and `daysRemaining = 15`, and the same check with
a proposed buy on day 31 returns `isWashSale = false`. -/
theorem checkWashSale_window_example :
    (checkWashSale [sellSymTxn] 1 "SYM" 15).isWashSale = true ∧
    (checkWashSale [sellSymTxn] 1 "SYM" 15).daysRemaining = 15 ∧
    (checkWashSale [sellSymTxn] 1 "SYM" 31).isWashSale = false ∧
    (checkWashSale [sellSymTxn] 1 "SYM" 31).daysRemaining = 0 := by
  exact ⟨rfl, rfl, rfl, rfl⟩


/-- A recommendation already in the terminal state `accepted`. -/
def acceptedRec : Recommendation where
  recommendationId := 1
  userId := 1
  holdingId := 7
  assetSymbol := "SYM"
  recommendationType := "harvest_loss"
  currentPrice := 80
  purchasePrice := 100
  quantity := 10
  potentialLoss := 200
  taxSavings := 30
  priorityScore := 5
  deadline := 2025
  notes := "harvest loss"
  status := RecStatus.accepted

/-- A holding of 10 units of `SYM`. -/
def symHolding : Holding where
  holdingId := 7
  userId := 1
  assetType := AssetType.stock
  assetSymbol := "SYM"
  quantity := 10
  averageBuyPrice := 100
  currentPrice := 80
  purchaseDate := 0
  profitLoss := -200
  profitLossPercentage := -20
  isShortTerm := true

/-- A store in which recommendation 1 has already been executed. -/
def executedState : EngineState where
  holdings := [symHolding]
  transactions := [sellSymTxn]
  recommendations := [acceptedRec]

/-- C1: when every recommendation carrying the requested id is no longer
`pending` (e.g. it was already executed), `executeRecommendation` returns the
error `"Recommendation not found or already executed"` and the whole state —
holdings, transactions and recommendations — is exactly the pre-call state:
the guard query requires `status = 'pending'`, finds no row, and the unit of
work rolls back before any insert, update or delete. -/
theorem executeRecommendation_second_call_noop (s : EngineState)
    (userId recommendationId : Nat) (now : ℤ)
    (h : ∀ r ∈ s.recommendations, r.recommendationId = recommendationId →
      r.status ≠ RecStatus.pending) :
    executeRecommendation s userId recommendationId now =
      (some "Recommendation not found or already executed", s) := by
  unfold executeRecommendation
  have hfilter : s.recommendations.filter (fun r =>
      r.recommendationId = recommendationId ∧ r.userId = userId ∧
      r.status = RecStatus.pending) = [] := by
    rw [List.filter_eq_nil_iff]
    intro r hr
    simp only [decide_eq_true_eq, not_and]
    intro h1 _ h3
    exact h r hr h1 h3
  rw [hfilter]

/-- C1 witness: in a store whose only recommendation 1 is already
`accepted`, a further `executeRecommendation` call for it fails with the
"not found or already executed" error and returns the store unchanged. -/
theorem executeRecommendation_second_call_noop_witness :
    executeRecommendation executedState 1 1 0 =
      (some "Recommendation not found or already executed", executedState) :=
  executeRecommendation_second_call_noop executedState 1 1 0 (by
    intro r hr h1
    simp only [executedState, List.mem_singleton] at hr
    subst hr
    decide)

/-- C3 (counterexample): in a store whose only recommendation (id 1, user 1)
is in the terminal state `accepted`, `updateRecommendationStatus` to
`rejected` succeeds (returns no error) and changes the status again — the
update has no `status = 'pending'` guard, so a terminal recommendation does
transition. -/
theorem updateRecommendationStatus_changes_terminal :
    (executedState.recommendations.map Recommendation.status = [RecStatus.accepted]) ∧
    (updateRecommendationStatus executedState 1 1 RecStatus.rejected).1 = none ∧
    ((updateRecommendationStatus executedState 1 1 RecStatus.rejected).2.recommendations.map
      Recommendation.status = [RecStatus.rejected]) := by
  refine ⟨rfl, rfl, rfl⟩

/-- C3 (amended): `executeRecommendation` refuses to touch a recommendation
whose status is not `pending`, but `updateRecommendationStatus` performs no
such check: it succeeds for any recommendation matching the id and user —
whatever its current status, terminal ones included — and sets the status
unconditionally. -/
theorem updateRecommendationStatus_ignores_current_status (s : EngineState)
    (recommendationId userId : Nat) (status : RecStatus)
    (h : ∃ r ∈ s.recommendations, r.recommendationId = recommendationId ∧ r.userId = userId) :
    (updateRecommendationStatus s recommendationId userId status).1 = none ∧
    ∀ r ∈ (updateRecommendationStatus s recommendationId userId status).2.recommendations,
      r.recommendationId = recommendationId → r.userId = userId → r.status = status := by
  obtain ⟨r0, hr0, hid, huser⟩ := h
  have hmem : r0 ∈ s.recommendations.filter (fun r =>
      r.recommendationId = recommendationId ∧ r.userId = userId) := by
    rw [List.mem_filter]
    exact ⟨hr0, by simp [hid, huser]⟩
  have hne : (s.recommendations.filter (fun r =>
      r.recommendationId = recommendationId ∧ r.userId = userId)).isEmpty = false := by
    rw [Bool.eq_false_iff]
    intro hemp
    rw [List.isEmpty_iff] at hemp
    rw [hemp] at hmem
    exact List.not_mem_nil r0 hmem
  constructor
  · rw [show updateRecommendationStatus s recommendationId userId status =
        if (s.recommendations.filter (fun r =>
            r.recommendationId = recommendationId ∧ r.userId = userId)).isEmpty = true
        then (some "Recommendation not found", s)
        else (none, { s with recommendations := s.recommendations.map (fun r =>
          if r.recommendationId = recommendationId ∧ r.userId = userId then
            { r with status := status } else r) }) from rfl, hne]
    simp
  · intro r hr hrid hruser
    rw [show updateRecommendationStatus s recommendationId userId status =
        if (s.recommendations.filter (fun r =>
            r.recommendationId = recommendationId ∧ r.userId = userId)).isEmpty = true
        then (some "Recommendation not found", s)
        else (none, { s with recommendations := s.recommendations.map (fun r =>
          if r.recommendationId = recommendationId ∧ r.userId = userId then
            { r with status := status } else r) }) from rfl, hne] at hr
    simp only [Bool.false_eq_true, if_false, List.mem_map] at hr
    obtain ⟨x, _, hx⟩ := hr
    by_cases hcond : x.recommendationId = recommendationId ∧ x.userId = userId
    · rw [if_pos hcond] at hx
      rw [← hx]
    · rw [if_neg hcond] at hx
      subst hx
      exact absurd ⟨hrid, hruser⟩ hcond

/-- C3 witness: the amended statement at the concrete store whose only
recommendation 1 (user 1) is `accepted`: updating it to `rejected` succeeds
and the stored status becomes `rejected`. -/
theorem updateRecommendationStatus_ignores_current_status_witness :
    (updateRecommendationStatus executedState 1 1 RecStatus.rejected).1 = none ∧
    ∀ r ∈ (updateRecommendationStatus executedState 1 1 RecStatus.rejected).2.recommendations,
      r.recommendationId = 1 → r.userId = 1 → r.status = RecStatus.rejected :=
  updateRecommendationStatus_ignores_current_status executedState 1 1 RecStatus.rejected
    ⟨acceptedRec, by simp [executedState], by simp [acceptedRec]⟩


/-- C5: the Tax Calculator subtracts the configured long-term equity
exemption from each single long-term equity holding's gain: the holding's
taxable amount is `max 0 (g − exemption)`, and for a portfolio of two
long-term equity holdings each gaining `g` the summed taxable amount is
`2 · max 0 (g − exemption)` — the exemption is applied per holding, not once
on the aggregate. -/
theorem calculateHoldingTax_exemption_per_holding (config : TaxConfig) (g : ℚ)
    (hg : 0 < g) (h1 h2 : Holding)
    (h1stock : h1.assetType = AssetType.stock) (h1long : h1.isShortTerm = false)
    (h1gain : h1.profitLoss = g)
    (h2stock : h2.assetType = AssetType.stock) (h2long : h2.isShortTerm = false)
    (h2gain : h2.profitLoss = g) :
    (calculateHoldingTax h1 config).taxableAmount =
      max 0 (g - config.longTermEquityExemption) ∧
    ((calculateTax [h1, h2] config).calculations.map TaxCalculation.taxableAmount).sum =
      2 * max 0 (g - config.longTermEquityExemption) := by
  have hcalc : ∀ h : Holding, h.assetType = AssetType.stock → h.isShortTerm = false →
      h.profitLoss = g →
      (calculateHoldingTax h config).taxableAmount =
        max 0 (g - config.longTermEquityExemption) := by
    intro h hstock hlong hgain
    unfold calculateHoldingTax
    rw [hstock, hlong, hgain]
    simp [hg]
  refine ⟨hcalc h1 h1stock h1long h1gain, ?_⟩
  show ((([h1, h2].map (fun h => calculateHoldingTax h config)).map
    TaxCalculation.taxableAmount).sum) = _
  simp only [List.map_cons, List.map_nil, List.sum_cons, List.sum_nil]
  rw [hcalc h1 h1stock h1long h1gain, hcalc h2 h2stock h2long h2gain]
  ring

/-- A long-term equity holding with a gain of 150,000. -/
def ltGainHolding : Holding where
  holdingId := 3
  userId := 1
  assetType := AssetType.stock
  assetSymbol := "INFY"
  quantity := 10
  averageBuyPrice := 1000
  currentPrice := 16000
  purchaseDate := 0
  profitLoss := 150000
  profitLossPercentage := 1500
  isShortTerm := false

/-- C5 witness: with the default configuration (exemption 100,000) and two
long-term equity holdings each gaining 150,000, each holding's taxable amount
is 50,000 and the summed taxable amount is 100,000 = 2 · 50,000. -/
theorem calculateHoldingTax_exemption_per_holding_witness :
    (calculateHoldingTax ltGainHolding defaultTaxConfig).taxableAmount =
      max 0 (150000 - defaultTaxConfig.longTermEquityExemption) ∧
    ((calculateTax [ltGainHolding, ltGainHolding] defaultTaxConfig).calculations.map
      TaxCalculation.taxableAmount).sum =
      2 * max 0 (150000 - defaultTaxConfig.longTermEquityExemption) :=
  calculateHoldingTax_exemption_per_holding defaultTaxConfig 150000 (by norm_num)
    ltGainHolding ltGainHolding rfl rfl rfl rfl rfl rfl


/-- Specification of the carry-forward offsetting order, phrased from the
spec: the short-term carry-forward first offsets the short-term gain
(`stOffset`), its remainder then offsets the long-term gain (`spill`); the
long-term carry-forward offsets only the remaining long-term gain
(`ltOffset`); the adjusted gains are the residues, never negative, and
`taxSaved` combines the used losses at the flat 15% / 10% rates. -/
def carryForwardOrderingSpec (stCarry ltCarry st lt : ℚ)
    (result : ApplyCarryForwardResult) : Prop :=
  let stOffset := min st stCarry
  let spill := min lt (stCarry - stOffset)
  let remLT := lt - spill
  let ltOffset := min remLT ltCarry
  result.adjustedSTGain = st - stOffset ∧
  result.adjustedLTGain = remLT - ltOffset ∧
  result.stLossUsed = stOffset + spill ∧
  result.ltLossUsed = ltOffset ∧
  0 ≤ result.adjustedSTGain ∧
  0 ≤ result.adjustedLTGain ∧
  result.taxSaved = result.stLossUsed * (15 / 100) + result.ltLossUsed * (10 / 100)

/-- C6: for non-negative current gains (and the non-negative carry-forward
totals the stored records produce), `applyCarryForward` realizes exactly the
ordered offsetting described by `carryForwardOrderingSpec`: short-term
carry-forward reduces the short-term gain first and spills into the
long-term gain, long-term carry-forward touches only the long-term gain, the
adjusted gains are the non-negative residues, and
`taxSaved = stLossUsed · 0.15 + ltLossUsed · 0.10`. -/
theorem applyCarryForward_ordering (rows : List CarryForwardRow) (userId : Nat)
    (financialYear : ℤ) (st lt : ℚ) (hst : 0 ≤ st) (hlt : 0 ≤ lt)
    (hSTc : 0 ≤ (getAvailableCarryForward rows userId financialYear).totalSTCarryForward)
    (hLTc : 0 ≤ (getAvailableCarryForward rows userId financialYear).totalLTCarryForward) :
    carryForwardOrderingSpec
      (getAvailableCarryForward rows userId financialYear).totalSTCarryForward
      (getAvailableCarryForward rows userId financialYear).totalLTCarryForward
      st lt (applyCarryForward rows userId financialYear st lt) := by
  unfold carryForwardOrderingSpec applyCarryForward
  dsimp only
  set S := (getAvailableCarryForward rows userId financialYear).totalSTCarryForward with hS
  set L := (getAvailableCarryForward rows userId financialYear).totalLTCarryForward with hL
  have hmin1 : st ⊓ S ≤ st := min_le_left st S
  have hmin2 : st ⊓ S ≤ S := min_le_right st S
  have hmin3 : lt ⊓ (S - st ⊓ S) ≤ lt := min_le_left _ _
  have hmin4 : lt ⊓ (S - st ⊓ S) ≤ S - st ⊓ S := min_le_right _ _
  split_ifs with h1 h2 h3 h4 h5 <;> dsimp only at *
  case _ =>
    refine ⟨rfl, rfl, rfl, rfl, by linarith, ?_, rfl⟩
    have := min_le_left (lt - lt ⊓ (S - st ⊓ S)) L
    linarith
  case _ =>
    have hz : (lt - lt ⊓ (S - st ⊓ S)) ⊓ L = 0 := by
      rcases not_and_or.mp h3 with hl | hr
      · have hL0 : L = 0 := le_antisymm (not_lt.mp hl) hLTc
        rw [hL0]
        exact min_eq_right (by linarith)
      · have hr0 : lt - lt ⊓ (S - st ⊓ S) = 0 := le_antisymm (not_lt.mp hr) (by linarith)
        rw [hr0]
        exact min_eq_left hLTc
    refine ⟨rfl, by linarith, rfl, hz.symm, by linarith, by linarith, rfl⟩
  case _ =>
    have hR0 : S - st ⊓ S = 0 := by
      rcases not_and_or.mp h2 with hl | hr
      · exact le_antisymm (not_lt.mp hl) (by linarith)
      · exact absurd h4.2 hr
    have hB0 : lt ⊓ (S - st ⊓ S) = 0 := by
      rw [hR0]
      exact min_eq_right hlt
    refine ⟨rfl, ?_, by linarith, ?_, by linarith, ?_, rfl⟩
    · rw [hB0]
      ring_nf
    · rw [hB0]
      ring_nf
    · have := min_le_left lt L
      linarith
  case _ =>
    have hB0 : lt ⊓ (S - st ⊓ S) = 0 := by
      rcases not_and_or.mp h2 with hl | hr
      · have hR0 : S - st ⊓ S = 0 := le_antisymm (not_lt.mp hl) (by linarith)
        rw [hR0]
        exact min_eq_right hlt
      · have hlt0 : lt = 0 := le_antisymm (not_lt.mp hr) hlt
        rw [hlt0]
        exact min_eq_left (by linarith)
    have hz : (lt - lt ⊓ (S - st ⊓ S)) ⊓ L = 0 := by
      rcases not_and_or.mp h4 with hl | hr
      · have hL0 : L = 0 := le_antisymm (not_lt.mp hl) hLTc
        rw [hL0]
        exact min_eq_right (by linarith)
      · have hlt0 : lt = 0 := le_antisymm (not_lt.mp hr) hlt
        rw [hB0, hlt0]
        simp [hLTc]
    refine ⟨rfl, by linarith, by linarith, by linarith, by linarith, by linarith, rfl⟩
  case _ =>
    have hS0 : S = 0 := le_antisymm (not_lt.mp h1) hSTc
    have hA0 : st ⊓ S = 0 := by
      rw [hS0]
      exact min_eq_right hst
    have hR0 : S - st ⊓ S = 0 := by
      rw [hA0, hS0]
      norm_num
    have hB0 : lt ⊓ (S - st ⊓ S) = 0 := by
      rw [hR0]
      exact min_eq_right hlt
    refine ⟨by linarith, ?_, by linarith, ?_, by linarith, ?_, rfl⟩
    · simp only [hB0, sub_zero]
    · simp only [hB0, sub_zero]
    · have := min_le_left lt L
      linarith
  case _ =>
    have hS0 : S = 0 := le_antisymm (not_lt.mp h1) hSTc
    have hA0 : st ⊓ S = 0 := by
      rw [hS0]
      exact min_eq_right hst
    have hR0 : S - st ⊓ S = 0 := by
      rw [hA0, hS0]
      norm_num
    have hB0 : lt ⊓ (S - st ⊓ S) = 0 := by
      rw [hR0]
      exact min_eq_right hlt
    have hz : (lt - lt ⊓ (S - st ⊓ S)) ⊓ L = 0 := by
      rcases not_and_or.mp h5 with hl | hr
      · have hL0 : L = 0 := le_antisymm (not_lt.mp hl) hLTc
        rw [hL0]
        exact min_eq_right (by linarith)
      · have hlt0 : lt = 0 := le_antisymm (not_lt.mp hr) hlt
        rw [hB0, hlt0]
        simp [hLTc]
    refine ⟨by linarith, by linarith, by linarith, by linarith, by linarith, by linarith, rfl⟩


/-- C6 witness: the ordering specification instantiated at the stored record
with short-term carry 1000 and long-term carry 500 against current gains
800 (short) and 700 (long). -/
theorem applyCarryForward_ordering_witness :
    carryForwardOrderingSpec
      ((getAvailableCarryForward [expiredCarryRow] 1 2020).totalSTCarryForward)
      ((getAvailableCarryForward [expiredCarryRow] 1 2020).totalLTCarryForward)
      800 700 (applyCarryForward [expiredCarryRow] 1 2020 800 700) :=
  applyCarryForward_ordering [expiredCarryRow] 1 2020 800 700 (by norm_num) (by norm_num)
    (by norm_num [getAvailableCarryForward, expiredCarryRow])
    (by norm_num [getAvailableCarryForward, expiredCarryRow])


/-- Helper: `executeRecommendation` keeps every holding quantity
non-negative: the error paths return the unchanged state; on success the
holding is either deleted (when the new quantity would be ≤ 0) or stored
with the strictly positive new quantity. -/
lemma executeRecommendation_nonneg (s : EngineState) (userId recommendationId : Nat)
    (now : ℤ) (hpos : ∀ h ∈ s.holdings, 0 ≤ h.quantity) :
    ∀ h ∈ (executeRecommendation s userId recommendationId now).2.holdings, 0 ≤ h.quantity := by
  intro h hmem
  unfold executeRecommendation at hmem
  dsimp only at hmem
  split at hmem
  · exact hpos h hmem
  · rename_i rec rest hrec
    split at hmem
    · exact hpos h hmem
    · rename_i holding hrest hholding
      dsimp only at hmem
      split at hmem
      · rename_i hle
        dsimp only at hmem
        rw [List.mem_filter] at hmem
        exact hpos h hmem.1
      · rename_i hgt
        dsimp only at hmem
        rw [List.mem_map] at hmem
        obtain ⟨x, hx, hfx⟩ := hmem
        by_cases hid : x.holdingId = holding.holdingId
        · rw [if_pos hid] at hfx
          rw [← hfx]
          dsimp only
          linarith [not_le.mp hgt]
        · rw [if_neg hid] at hfx
          rw [← hfx]
          exact hpos x hx


/-- Helper: `reverseTransaction` keeps every holding quantity non-negative
provided all stored transaction quantities are non-negative and every buy
transaction's quantity is at most its holding's current quantity. -/
lemma reverseTransaction_nonneg (s : EngineState) (userId transactionId : Nat)
    (hpos : ∀ h ∈ s.holdings, 0 ≤ h.quantity)
    (htq : ∀ t ∈ s.transactions, 0 ≤ t.quantity)
    (hbuy : ∀ t ∈ s.transactions, t.transactionType = TxnType.buy →
      ∀ h ∈ s.holdings, t.holdingId = some h.holdingId → t.quantity ≤ h.quantity) :
    ∀ h ∈ (reverseTransaction s userId transactionId).2.holdings, 0 ≤ h.quantity := by
  intro h hmem
  unfold reverseTransaction at hmem
  dsimp only at hmem
  split at hmem
  · exact hpos h hmem
  · rename_i txn rest hfilter
    have htxn : txn ∈ s.transactions ∧ txn.transactionId = transactionId ∧ txn.userId = userId := by
      have : txn ∈ s.transactions.filter (fun t =>
          t.transactionId = transactionId ∧ t.userId = userId) := by
        rw [hfilter]
        exact List.mem_cons_self txn rest
      rw [List.mem_filter] at this
      refine ⟨this.1, ?_⟩
      simpa using this.2
    dsimp only at hmem
    split at hmem
    · rename_i hidv hsell hmatch
      split at hmem
      · dsimp only at hmem
        rw [List.mem_map] at hmem
        obtain ⟨x, hx, hfx⟩ := hmem
        by_cases hxid : x.holdingId = hidv
        · rw [if_pos hxid] at hfx
          rw [← hfx]
          dsimp only
          have h1 := hpos x hx
          have h2 := htq txn htxn.1
          linarith
        · rw [if_neg hxid] at hfx
          rw [← hfx]
          exact hpos x hx
      · dsimp only at hmem
        rw [List.mem_append] at hmem
        rcases hmem with hmem | hmem
        · exact hpos h hmem
        · rw [List.mem_singleton] at hmem
          rw [hmem]
          exact htq txn htxn.1
    · rename_i hidv hbuyeq hmatch
      dsimp only at hmem
      rw [List.mem_map] at hmem
      obtain ⟨x, hx, hfx⟩ := hmem
      by_cases hxid : x.holdingId = hidv
      · rw [if_pos hxid] at hfx
        rw [← hfx]
        dsimp only
        have hle := hbuy txn htxn.1 hbuyeq x hx (by rw [hmatch, hxid])
        linarith
      · rw [if_neg hxid] at hfx
        rw [← hfx]
        exact hpos x hx
    all_goals exact hpos h hmem


/-- A holding of 5 units. -/
def smallHolding : Holding where
  holdingId := 1
  userId := 1
  assetType := AssetType.stock
  assetSymbol := "TCS"
  quantity := 5
  averageBuyPrice := 100
  currentPrice := 100
  purchaseDate := 0
  profitLoss := 0
  profitLossPercentage := 0
  isShortTerm := true

/-- A buy of 10 units recorded against holding 1 (more than it now has). -/
def bigBuyTxn : Txn where
  transactionId := 1
  userId := 1
  holdingId := some 1
  assetType := AssetType.stock
  assetSymbol := "TCS"
  transactionType := TxnType.buy
  quantity := 10
  price := 100
  transactionDate := 0
  platform := "manual"
  notes := ""

/-- A store where reversing the buy drives holding 1 negative. -/
def buyReversalState : EngineState where
  holdings := [smallHolding]
  transactions := [bigBuyTxn]
  recommendations := []

/-- C2 (counterexample): starting from a store whose only holding has
quantity 5 ≥ 0, reversing a buy transaction of quantity 10 leaves a holding
with quantity −5 < 0 in the store: the buy-reversal path decrements the
quantity unconditionally and never deletes the holding, so the claimed
invariant fails for `reverseTransaction` on buy transactions. -/
theorem reverseTransaction_buy_breaks_invariant :
    (∀ h ∈ buyReversalState.holdings, 0 ≤ h.quantity) ∧
    ∃ h ∈ (reverseTransaction buyReversalState 1 1).2.holdings, h.quantity < 0 := by
  constructor
  · intro h hh
    rw [show buyReversalState.holdings = [smallHolding] from rfl, List.mem_singleton] at hh
    rw [hh]
    norm_num [smallHolding]
  · norm_num [reverseTransaction, buyReversalState, smallHolding, bigBuyTxn]


/-- C2 (amended): starting from a state in which all holding quantities are
≥ 0, `executeRecommendation` always preserves the invariant (a holding whose
quantity would reach 0 or below is deleted, never stored negative), and
`reverseTransaction` preserves it for sell reversals whenever stored
transaction quantities are non-negative, but for buy reversals only under
the additional hypothesis that the reversed buy's quantity does not exceed
the holding's current quantity — without it the buy-reversal decrement can
store a negative quantity. -/
theorem holdingQuantity_invariant_amended (s : EngineState)
    (userId recommendationId transactionId : Nat) (now : ℤ)
    (hpos : ∀ h ∈ s.holdings, 0 ≤ h.quantity) :
    (∀ h ∈ (executeRecommendation s userId recommendationId now).2.holdings, 0 ≤ h.quantity) ∧
    ((∀ t ∈ s.transactions, 0 ≤ t.quantity) →
     (∀ t ∈ s.transactions, t.transactionType = TxnType.buy →
        ∀ h ∈ s.holdings, t.holdingId = some h.holdingId → t.quantity ≤ h.quantity) →
     ∀ h ∈ (reverseTransaction s userId transactionId).2.holdings, 0 ≤ h.quantity) :=
  ⟨executeRecommendation_nonneg s userId recommendationId now hpos,
   fun htq hbuy => reverseTransaction_nonneg s userId transactionId hpos htq hbuy⟩

/-- C2 witness: the amended invariant instantiated at the concrete store
holding 10 units of `SYM` with one sell transaction recorded: both a further
`executeRecommendation` call and a `reverseTransaction` call leave all
quantities ≥ 0. -/
theorem holdingQuantity_invariant_amended_witness :
    (∀ h ∈ (executeRecommendation executedState 1 1 0).2.holdings, 0 ≤ h.quantity) ∧
    (∀ h ∈ (reverseTransaction executedState 1 1).2.holdings, 0 ≤ h.quantity) := by
  have hpos : ∀ h ∈ executedState.holdings, 0 ≤ h.quantity := by
    intro h hh
    rw [show executedState.holdings = [symHolding] from rfl, List.mem_singleton] at hh
    rw [hh]
    norm_num [symHolding]
  have base := holdingQuantity_invariant_amended executedState 1 1 1 0 hpos
  refine ⟨base.1, base.2 ?_ ?_⟩
  · intro t ht
    rw [show executedState.transactions = [sellSymTxn] from rfl, List.mem_singleton] at ht
    rw [ht]
    norm_num [sellSymTxn]
  · intro t ht htype
    rw [show executedState.transactions = [sellSymTxn] from rfl, List.mem_singleton] at ht
    rw [ht] at htype
    exact absurd htype (by decide)


/-- Membership is preserved by the stable insertion. -/
lemma mem_insertByPriority {a r : Recommendation} {l : List Recommendation} :
    a ∈ insertByPriority r l ↔ a = r ∨ a ∈ l := by
  induction l with
  | nil => simp [insertByPriority]
  | cons x xs ih =>
    unfold insertByPriority
    split_ifs with hlt
    · simp
    · simp only [List.mem_cons, ih]
      tauto

/-- Sorting by priority permutes membership only. -/
lemma mem_sortByPriority {a : Recommendation} {l : List Recommendation} :
    a ∈ sortByPriority l ↔ a ∈ l := by
  induction l with
  | nil => simp [sortByPriority]
  | cons x xs ih =>
    unfold sortByPriority
    rw [mem_insertByPriority, ih, List.mem_cons]

/-- The two net-gain buckets of a summary computed by `calculateTax` are
clipped at zero. -/
lemma calculateTax_net_nonneg (holdings : List Holding) (taxConfig : TaxConfig) :
    0 ≤ (calculateTax holdings taxConfig).netShortTermGains ∧
    0 ≤ (calculateTax holdings taxConfig).netLongTermGains := by
  unfold calculateTax
  exact ⟨le_max_left 0 _, le_max_left 0 _⟩

/-- The estimated savings of one recommendation, in closed form: when both
net buckets are non-negative, the branchy savings computation equals
`min potentialLoss bucket · rate / 100` for the holding's own bucket. -/
lemma buildRecommendation_taxSavings (userId : Nat) (fyStartYear : ℤ)
    (summary : TaxSummary) (c : TaxCalculation)
    (hST : 0 ≤ summary.netShortTermGains) (hLT : 0 ≤ summary.netLongTermGains) :
    (buildRecommendation userId fyStartYear summary c).taxSavings =
      min |c.gainLoss|
        (if c.isShortTerm then summary.netShortTermGains else summary.netLongTermGains) *
        c.taxRate / 100 := by
  unfold buildRecommendation
  dsimp only
  split_ifs with h1 h2 h3 h4 h5
  · rfl
  · exact absurd h1.1 h2
  · exact absurd h4 (by simp [h3.1])
  · rfl
  · have hz : summary.netShortTermGains = 0 :=
      le_antisymm (not_lt.mp fun hgt => h1 ⟨h5, hgt⟩) hST
    rw [hz, min_eq_right (abs_nonneg c.gainLoss)]
    ring
  · have hbf : c.isShortTerm = false := eq_false_of_ne_true h5
    have hz : summary.netLongTermGains = 0 :=
      le_antisymm (not_lt.mp fun hgt => h3 ⟨hbf, hgt⟩) hLT
    rw [hz, min_eq_right (abs_nonneg c.gainLoss)]
    ring


/-- C9: every recommendation that `generateRecommendations` produces is built
for a loss-making calculation against the one fixed summary of the run, and
for every such calculation the estimated `taxSavings` equals
`min(potentialLoss, net gain of the holding's term bucket) · (the holding's
own tax rate) / 100`, where the bucket total is the summary's value — never
decremented by earlier recommendations of the same run, so same-bucket
recommendations are all scored against the identical total — and the savings
are 0 whenever the matching bucket's net gain is 0. -/
theorem generateRecommendations_savings_bucket (userId : Nat)
    (holdings : List Holding) (taxConfig : TaxConfig) (fyStartYear : ℤ) :
    (∀ r ∈ generateRecommendations userId holdings taxConfig fyStartYear,
       ∃ c ∈ (calculateTax holdings taxConfig).calculations, c.gainLoss < 0 ∧
         r = buildRecommendation userId fyStartYear (calculateTax holdings taxConfig) c) ∧
    (∀ c ∈ (calculateTax holdings taxConfig).calculations, c.gainLoss < 0 →
       (buildRecommendation userId fyStartYear (calculateTax holdings taxConfig) c).taxSavings =
         min |c.gainLoss|
           (if c.isShortTerm then (calculateTax holdings taxConfig).netShortTermGains
            else (calculateTax holdings taxConfig).netLongTermGains) * c.taxRate / 100) ∧
    (∀ c ∈ (calculateTax holdings taxConfig).calculations, c.gainLoss < 0 →
       (if c.isShortTerm then (calculateTax holdings taxConfig).netShortTermGains
        else (calculateTax holdings taxConfig).netLongTermGains) = 0 →
       (buildRecommendation userId fyStartYear (calculateTax holdings taxConfig) c).taxSavings
         = 0) := by
  obtain ⟨hST, hLT⟩ := calculateTax_net_nonneg holdings taxConfig
  refine ⟨?_, ?_, ?_⟩
  · intro r hr
    unfold generateRecommendations at hr
    dsimp only at hr
    rw [mem_sortByPriority, List.mem_map] at hr
    obtain ⟨c, hc, hbuild⟩ := hr
    rw [List.mem_filter] at hc
    exact ⟨c, hc.1, by simpa using hc.2, hbuild.symm⟩
  · intro c _ _
    exact buildRecommendation_taxSavings userId fyStartYear _ c hST hLT
  · intro c hc hneg hzero
    rw [buildRecommendation_taxSavings userId fyStartYear _ c hST hLT, hzero,
      min_eq_right (abs_nonneg c.gainLoss)]
    ring

/-- A short-term equity holding carrying a 2,000 loss. -/
def relianceLossHolding : Holding where
  holdingId := 11
  userId := 1
  assetType := AssetType.stock
  assetSymbol := "RELIANCE"
  quantity := 10
  averageBuyPrice := 2500
  currentPrice := 2300
  purchaseDate := 0
  profitLoss := -2000
  profitLossPercentage := -8
  isShortTerm := true

/-- A short-term equity holding carrying a 5,000 gain. -/
def shortTermGainHolding : Holding where
  holdingId := 12
  userId := 1
  assetType := AssetType.stock
  assetSymbol := "TCS"
  quantity := 10
  averageBuyPrice := 1000
  currentPrice := 1500
  purchaseDate := 0
  profitLoss := 5000
  profitLossPercentage := 50
  isShortTerm := true

/-- C9 witness: for the loss-making RELIANCE holding next to a 5,000
short-term gain, the built recommendation's savings formula instantiated at
the defaults: the savings equal `min 2000 bucket · rate / 100` with the
bucket the summary's fixed net short-term gain. -/
theorem generateRecommendations_savings_bucket_witness :
    (buildRecommendation 1 2024
      (calculateTax [relianceLossHolding, shortTermGainHolding] defaultTaxConfig)
      (calculateHoldingTax relianceLossHolding defaultTaxConfig)).taxSavings =
      min |(calculateHoldingTax relianceLossHolding defaultTaxConfig).gainLoss|
        (if (calculateHoldingTax relianceLossHolding defaultTaxConfig).isShortTerm then
          (calculateTax [relianceLossHolding, shortTermGainHolding] defaultTaxConfig).netShortTermGains
         else
          (calculateTax [relianceLossHolding, shortTermGainHolding] defaultTaxConfig).netLongTermGains) *
        (calculateHoldingTax relianceLossHolding defaultTaxConfig).taxRate / 100 :=
  (generateRecommendations_savings_bucket 1 [relianceLossHolding, shortTermGainHolding]
      defaultTaxConfig 2024).2.1
    (calculateHoldingTax relianceLossHolding defaultTaxConfig)
    (by
      show calculateHoldingTax relianceLossHolding defaultTaxConfig ∈
        ([relianceLossHolding, shortTermGainHolding].map
          (fun h => calculateHoldingTax h defaultTaxConfig))
      simp)
    (by norm_num [calculateHoldingTax, relianceLossHolding, defaultTaxConfig])


/-- The amount one slab contributes to `calculateSlabTax`. -/
def slabAmount (income : ℚ) (slab : Slab) : ℚ :=
  if income > slab.min then (capAt income slab.max - slab.min) * slab.rate else 0

/-- A well-formed slab: non-negative rate, and the cap (when finite) at or
above the floor.  Both hard-coded tables satisfy this. -/
def slabOk (slab : Slab) : Prop :=
  0 ≤ slab.rate ∧ ∀ m, slab.max = some m → slab.min ≤ m

/-- The fold in `calculateSlabTax` is the sum of the slab amounts. -/
lemma calculateSlabTax_eq_sum (income : ℚ) (slabs : List Slab) :
    calculateSlabTax income slabs = (slabs.map (slabAmount income)).sum := by
  suffices h : ∀ a : ℚ, slabs.foldl
      (fun tax slab =>
        if income > slab.min then tax + (capAt income slab.max - slab.min) * slab.rate
        else tax) a = a + (slabs.map (slabAmount income)).sum by
    simpa using h 0
  induction slabs with
  | nil => intro a; simp
  | cons x xs ih =>
    intro a
    simp only [List.foldl_cons, List.map_cons, List.sum_cons]
    rw [ih]
    unfold slabAmount
    split_ifs with hx <;> ring

/-- Each slab amount is non-negative for a well-formed slab. -/
lemma slabAmount_nonneg (income : ℚ) (slab : Slab) (hok : slabOk slab) :
    0 ≤ slabAmount income slab := by
  unfold slabAmount
  split_ifs with h
  · apply mul_nonneg _ hok.1
    unfold capAt
    rcases hm : slab.max with _ | m
    · linarith
    · have := hok.2 m hm
      have h1 : slab.min ≤ min income m := le_min (le_of_lt h) this
      linarith
  · exact le_refl 0

/-- Each slab amount is monotone in income for a well-formed slab. -/
lemma slabAmount_mono (a b : ℚ) (slab : Slab) (hok : slabOk slab) (hab : a ≤ b) :
    slabAmount a slab ≤ slabAmount b slab := by
  unfold slabAmount
  split_ifs with h1 h2 h2
  · apply mul_le_mul_of_nonneg_right _ hok.1
    apply sub_le_sub_right
    unfold capAt
    rcases slab.max with _ | m
    · exact hab
    · exact min_le_min hab (le_refl m)
  · exact absurd (lt_of_lt_of_le h1 hab) h2
  · have : (0 : ℚ) ≤ (capAt b slab.max - slab.min) * slab.rate := by
      apply mul_nonneg _ hok.1
      unfold capAt
      rcases hm : slab.max with _ | m
      · linarith
      · have := hok.2 m hm
        have h3 : slab.min ≤ min b m := le_min (le_of_lt h2) this
        linarith
    exact this
  · exact le_refl 0

/-- `calculateSlabTax` is monotone over any table of well-formed slabs. -/
lemma calculateSlabTax_mono (a b : ℚ) (slabs : List Slab)
    (hok : ∀ s ∈ slabs, slabOk s) (hab : a ≤ b) :
    calculateSlabTax a slabs ≤ calculateSlabTax b slabs := by
  rw [calculateSlabTax_eq_sum, calculateSlabTax_eq_sum]
  exact List.sum_le_sum fun s hs => slabAmount_mono a b s (hok s hs) hab

/-- `calculateSlabTax` is non-negative over any table of well-formed slabs. -/
lemma calculateSlabTax_nonneg (a : ℚ) (slabs : List Slab)
    (hok : ∀ s ∈ slabs, slabOk s) : 0 ≤ calculateSlabTax a slabs := by
  rw [calculateSlabTax_eq_sum]
  apply List.sum_nonneg
  intro x hx
  rw [List.mem_map] at hx
  obtain ⟨s, hs, hsx⟩ := hx
  rw [← hsx]
  exact slabAmount_nonneg a s (hok s hs)

/-- Every slab of the old-regime table is well-formed. -/
lemma old_regime_slabs_ok : ∀ s ∈ OLD_REGIME_SLABS, slabOk s := by
  intro s hs
  fin_cases hs <;>
    exact ⟨by norm_num, by
      intro m hm
      first
      | (injection hm with h
         rw [← h]
         norm_num)
      | exact absurd hm (by simp)⟩

/-- Every slab of the new-regime table is well-formed. -/
lemma new_regime_slabs_ok : ∀ s ∈ NEW_REGIME_SLABS, slabOk s := by
  intro s hs
  fin_cases hs <;>
    exact ⟨by norm_num, by
      intro m hm
      first
      | (injection hm with h
         rw [← h]
         norm_num)
      | exact absurd hm (by simp)⟩

/-- The tiered surcharge is monotone in both the tax and the income. -/
lemma calculateSurcharge_mono (t1 t2 i1 i2 : ℚ) (ht0 : 0 ≤ t1) (ht : t1 ≤ t2)
    (hi : i1 ≤ i2) : calculateSurcharge t1 i1 ≤ calculateSurcharge t2 i2 := by
  unfold calculateSurcharge
  split_ifs <;> nlinarith

/-- The tiered surcharge is non-negative for a non-negative tax. -/
lemma calculateSurcharge_nonneg (t i : ℚ) (ht : 0 ≤ t) :
    0 ≤ calculateSurcharge t i := by
  unfold calculateSurcharge
  split_ifs <;> nlinarith


/-- The old-regime total of `quickEstimate` is monotone in income for a
fixed lump deduction. -/
lemma quickEstimate_oldTotal_mono (a b d : ℚ) (hab : a ≤ b) :
    (calculateOldRegime (quickEstimateInput a d)).totalTax ≤
      (calculateOldRegime (quickEstimateInput b d)).totalTax := by
  unfold calculateOldRegime quickEstimateInput getTotalCapitalGains calculateCapitalGainsTax
  dsimp only
  have hti : max 0 (a - min (d + 0 + 0 + 0 + 0) 350000) ≤
      max 0 (b - min (d + 0 + 0 + 0 + 0) 350000) :=
    max_le_max (le_refl 0) (sub_le_sub_right hab _)
  have hit := calculateSlabTax_mono _ _ OLD_REGIME_SLABS old_regime_slabs_ok hti
  have hit0 := calculateSlabTax_nonneg (max 0 (a - min (d + 0 + 0 + 0 + 0) 350000))
    OLD_REGIME_SLABS old_regime_slabs_ok
  have hsur := calculateSurcharge_mono _ _ (a + (0 + 0 + 0 + 0)) (b + (0 + 0 + 0 + 0))
    hit0 hit (by linarith)
  refine add_le_add (add_le_add (add_le_add hit hsur) ?_) (le_refl _)
  exact mul_le_mul_of_nonneg_right (add_le_add hit hsur) (by norm_num)

/-- The new-regime total of `quickEstimate` is monotone in income. -/
lemma quickEstimate_newTotal_mono (a b d : ℚ) (hab : a ≤ b) :
    (calculateNewRegime (quickEstimateInput a d)).totalTax ≤
      (calculateNewRegime (quickEstimateInput b d)).totalTax := by
  unfold calculateNewRegime quickEstimateInput getTotalCapitalGains calculateCapitalGainsTax
  dsimp only
  have hit := calculateSlabTax_mono a b NEW_REGIME_SLABS new_regime_slabs_ok hab
  have hit0 := calculateSlabTax_nonneg a NEW_REGIME_SLABS new_regime_slabs_ok
  have hsur := calculateSurcharge_mono _ _ (a + (0 + 0 + 0 + 0)) (b + (0 + 0 + 0 + 0))
    hit0 hit (by linarith)
  refine add_le_add (add_le_add (add_le_add hit hsur) ?_) (le_refl _)
  exact mul_le_mul_of_nonneg_right (add_le_add hit hsur) (by norm_num)

/-- C10: for each fixed hard-coded slab table (4-slab old regime, 6-slab new
regime), the slab-wise income-tax function is monotonically non-decreasing
in income; consequently `quickEstimate` never reports a higher tax for a
lower income in either regime. -/
theorem calculateSlabTax_monotone (a b : ℚ) (_h0 : 0 ≤ a) (hab : a ≤ b) :
    calculateSlabTax a OLD_REGIME_SLABS ≤ calculateSlabTax b OLD_REGIME_SLABS ∧
    calculateSlabTax a NEW_REGIME_SLABS ≤ calculateSlabTax b NEW_REGIME_SLABS ∧
    ∀ d : ℚ, (quickEstimate a d).1 ≤ (quickEstimate b d).1 ∧
      (quickEstimate a d).2.1 ≤ (quickEstimate b d).2.1 := by
  refine ⟨calculateSlabTax_mono a b OLD_REGIME_SLABS old_regime_slabs_ok hab,
    calculateSlabTax_mono a b NEW_REGIME_SLABS new_regime_slabs_ok hab, ?_⟩
  intro d
  exact ⟨quickEstimate_oldTotal_mono a b d hab, quickEstimate_newTotal_mono a b d hab⟩

/-- C10 witness: the slab-tax and quick-estimate monotonicity at incomes
500,000 ≤ 900,000 with a 50,000 deduction. -/
theorem calculateSlabTax_monotone_witness :
    calculateSlabTax 500000 OLD_REGIME_SLABS ≤ calculateSlabTax 900000 OLD_REGIME_SLABS ∧
    calculateSlabTax 500000 NEW_REGIME_SLABS ≤ calculateSlabTax 900000 NEW_REGIME_SLABS ∧
    ((quickEstimate 500000 50000).1 ≤ (quickEstimate 900000 50000).1 ∧
     (quickEstimate 500000 50000).2.1 ≤ (quickEstimate 900000 50000).2.1) :=
  ⟨(calculateSlabTax_monotone 500000 900000 (by norm_num) (by norm_num)).1,
   (calculateSlabTax_monotone 500000 900000 (by norm_num) (by norm_num)).2.1,
   (calculateSlabTax_monotone 500000 900000 (by norm_num) (by norm_num)).2.2 50000⟩

end TaxSaver
